import Mathlib

/-!
Verification of the Calorie Snap nutrition-resolution and portion-calculation
logic (src/lib/nutrition.ts, src/components/PortionPicker.tsx, src/lib/export.ts).

Modelling conventions:
* JavaScript numbers are modelled as rationals (`ℚ`); `Math.round x` is
  `⌊x + 1/2⌋` (JavaScript rounds half-up, toward positive infinity).
* JavaScript strings are modelled as `List Char` (`JStr`); `toLowerCase` maps
  `Char.toLower` over the characters and `trim` drops whitespace at both ends.
* Each remote fetch is modelled by a `FetchOutcome` value describing what the
  network returned (network error, HTTP response with its `ok` flag and parsed
  body).  The food name sent in the request does not determine the outcome, so
  provider functions take the outcome as an explicit argument.
* `import.meta.env` is modelled by `Env`; a credential is "configured" when the
  variable is present and non-empty (JavaScript truthiness for strings).
* Thrown exceptions are modelled by `Except String`.
-/

namespace CalorieSnap

/-- JavaScript string, modelled as its list of characters. -/
abbrev JStr := List Char

/-- JavaScript `Math.round`: round half-up (toward +∞). -/
def jsRound (q : ℚ) : ℤ := ⌊q + 1/2⌋

/-- `Math.round(x * 10) / 10`: round to one decimal place. -/
def round1 (q : ℚ) : ℚ := (jsRound (q * 10) : ℚ) / 10

/-- The `source` tag of a nutrition record: `'nutritionix' | 'calorieninjas' | 'local'`. -/
inductive Source where
  | nutritionix
  | calorieninjas
  | localdb
deriving DecidableEq

/-- `NutritionData` from src/types/index.ts. -/
structure NutritionData where
  kcalPer100g : ℚ
  protein : ℚ
  carbs : ℚ
  fat : ℚ
  source : Source
deriving DecidableEq

/-- The fields of a Nutritionix `foods[0]` object consumed by the code. -/
structure NutritionixFood where
  nf_calories : ℚ
  serving_weight_grams : ℚ
  nf_protein : ℚ
  nf_total_carbohydrate : ℚ
  nf_total_fat : ℚ

/-- The fields of a CalorieNinjas `items[0]` object consumed by the code. -/
structure CalorieNinjasItem where
  calories : ℚ
  protein_g : ℚ
  carbohydrates_total_g : ℚ
  fat_total_g : ℚ

/-- Outcome of one `fetch` call: the network threw, or an HTTP response came
back with its `ok` flag, status code, and parsed JSON body.  `none` for the
body models a JSON payload whose `foods` / `items` array is absent. -/
inductive FetchOutcome (α : Type) where
  | networkError
  | response (ok : Bool) (status : Nat) (body : Option (List α))

/-- The three `import.meta.env` variables read by src/lib/nutrition.ts. -/
structure Env where
  VITE_NUTRITIONIX_APP_ID : Option String
  VITE_NUTRITIONIX_API_KEY : Option String
  VITE_CALORIE_NINJAS_KEY : Option String

/-- JavaScript truthiness of an optional environment string: present and non-empty. -/
def truthy : Option String → Bool
  | none => false
  | some s => !s.isEmpty

/-- `getNutritionFromNutritionix` (nutrition.ts lines 40-79): check credentials,
fetch, reject non-ok responses and empty `foods`, else normalize `foods[0]`
from per-serving to per-100g. -/
def getNutritionFromNutritionix (env : Env) (outcome : FetchOutcome NutritionixFood) :
    Except String NutritionData :=
  if !truthy env.VITE_NUTRITIONIX_APP_ID || !truthy env.VITE_NUTRITIONIX_API_KEY then
    Except.error "Nutritionix credentials not configured"
  else
    match outcome with
    | FetchOutcome.networkError => Except.error "fetch failed"
    | FetchOutcome.response ok status body =>
      if !ok then
        Except.error ("Nutritionix API error: " ++ toString status)
      else
        match body with
        | none => Except.error "No nutrition data found for this food"
        | some [] => Except.error "No nutrition data found for this food"
        | some (food :: _) =>
          Except.ok
            { kcalPer100g := (jsRound (food.nf_calories / (food.serving_weight_grams / 100)) : ℚ)
              protein := round1 food.nf_protein
              carbs := round1 food.nf_total_carbohydrate
              fat := round1 food.nf_total_fat
              source := Source.nutritionix }

/-- `getNutritionFromCalorieNinjas` (nutrition.ts lines 81-113): check the key,
fetch, reject non-ok responses and empty `items`, else round the per-100g
values of `items[0]`. -/
def getNutritionFromCalorieNinjas (env : Env) (outcome : FetchOutcome CalorieNinjasItem) :
    Except String NutritionData :=
  if !truthy env.VITE_CALORIE_NINJAS_KEY then
    Except.error "CalorieNinjas API key not configured"
  else
    match outcome with
    | FetchOutcome.networkError => Except.error "fetch failed"
    | FetchOutcome.response ok status body =>
      if !ok then
        Except.error ("CalorieNinjas API error: " ++ toString status)
      else
        match body with
        | none => Except.error "No nutrition data found for this food"
        | some [] => Except.error "No nutrition data found for this food"
        | some (food :: _) =>
          Except.ok
            { kcalPer100g := (jsRound food.calories : ℚ)
              protein := round1 food.protein_g
              carbs := round1 food.carbohydrates_total_g
              fat := round1 food.fat_total_g
              source := Source.calorieninjas }

/-- `LOCAL_FOOD_DB` (nutrition.ts lines 4-15), in insertion order (JavaScript
object string keys iterate in insertion order). -/
def LOCAL_FOOD_DB : List (JStr × NutritionData) :=
  [ ("apple".data, { kcalPer100g := 52, protein := 0.3, carbs := 14, fat := 0.2, source := Source.localdb }),
    ("banana".data, { kcalPer100g := 89, protein := 1.1, carbs := 23, fat := 0.3, source := Source.localdb }),
    ("rice".data, { kcalPer100g := 130, protein := 2.7, carbs := 28, fat := 0.3, source := Source.localdb }),
    ("chicken breast".data, { kcalPer100g := 165, protein := 31, carbs := 0, fat := 3.6, source := Source.localdb }),
    ("pizza slice".data, { kcalPer100g := 266, protein := 11, carbs := 33, fat := 10, source := Source.localdb }),
    ("hamburger".data, { kcalPer100g := 295, protein := 17, carbs := 25, fat := 15, source := Source.localdb }),
    ("pasta".data, { kcalPer100g := 131, protein := 5, carbs := 25, fat := 1.1, source := Source.localdb }),
    ("bread".data, { kcalPer100g := 265, protein := 9, carbs := 49, fat := 3.2, source := Source.localdb }),
    ("eggs".data, { kcalPer100g := 155, protein := 13, carbs := 1.1, fat := 11, source := Source.localdb }),
    ("milk".data, { kcalPer100g := 42, protein := 3.4, carbs := 5, fat := 1, source := Source.localdb }) ]

/-- JavaScript `String.prototype.toLowerCase` on basic latin letters. -/
def jsToLowerCase (s : JStr) : JStr := s.map Char.toLower

/-- JavaScript `String.prototype.trim`: drop whitespace from both ends. -/
def jsTrim (s : JStr) : JStr :=
  ((s.dropWhile Char.isWhitespace).reverse.dropWhile Char.isWhitespace).reverse

/-- `foodName.toLowerCase().trim()` (nutrition.ts line 116). -/
def normalizeName (foodName : JStr) : JStr := jsTrim (jsToLowerCase foodName)

/-- Does `hay` start with `needle`?  Helper for JavaScript `includes`. -/
def strStartsWith (hay needle : JStr) : Bool :=
  match needle, hay with
  | [], _ => true
  | _ :: _, [] => false
  | a :: ns, b :: hs => a == b && strStartsWith hs ns

/-- JavaScript `hay.includes(needle)`: `needle` occurs contiguously in `hay`. -/
def strContains (hay needle : JStr) : Bool :=
  match hay with
  | [] => strStartsWith [] needle
  | _ :: t => strStartsWith hay needle || strContains t needle

/-- Body of `getNutritionFromLocal` after the name has been normalized
(nutrition.ts lines 118-137): exact key match, then substring containment in
both directions in table order, then the fixed default record. -/
def lookupLocal (normalizedName : JStr) : NutritionData :=
  match LOCAL_FOOD_DB.find? (fun kv => kv.fst == normalizedName) with
  | some kv => kv.snd
  | none =>
    match LOCAL_FOOD_DB.find? (fun kv =>
        strContains normalizedName kv.fst || strContains kv.fst normalizedName) with
    | some kv => kv.snd
    | none =>
      { kcalPer100g := 200, protein := 10, carbs := 20, fat := 8, source := Source.localdb }

/-- `getNutritionFromLocal` (nutrition.ts lines 115-138). -/
def getNutritionFromLocal (foodName : JStr) : NutritionData :=
  lookupLocal (normalizeName foodName)

/-- `getNutrition` (nutrition.ts lines 17-38): try Nutritionix when its
credentials are configured, catching any failure; then CalorieNinjas when its
key is configured, catching any failure; then the local table. -/
def getNutrition (env : Env) (nix : FetchOutcome NutritionixFood)
    (cn : FetchOutcome CalorieNinjasItem) (foodName : JStr) : NutritionData :=
  let tryNix : Option NutritionData :=
    if truthy env.VITE_NUTRITIONIX_APP_ID && truthy env.VITE_NUTRITIONIX_API_KEY then
      match getNutritionFromNutritionix env nix with
      | Except.ok r => some r
      | Except.error _ => none
    else none
  match tryNix with
  | some r => r
  | none =>
    let tryCN : Option NutritionData :=
      if truthy env.VITE_CALORIE_NINJAS_KEY then
        match getNutritionFromCalorieNinjas env cn with
        | Except.ok r => some r
        | Except.error _ => none
      else none
    match tryCN with
    | some r => r
    | none => getNutritionFromLocal foodName

/-- `calculateCalories` (nutrition.ts lines 140-142). -/
def calculateCalories (nutritionData : NutritionData) (grams : ℚ) : ℤ :=
  jsRound (nutritionData.kcalPer100g * grams / 100)

/-- `PortionData` from src/types/index.ts. -/
structure PortionData where
  servings : ℚ
  grams : ℚ
deriving DecidableEq

/-- `updateServings` (PortionPicker.tsx lines 27-31): clamp the servings to
[0.25, 3] and derive grams as `Math.round(servings * 100)`. -/
def updateServings (newServings : ℚ) : PortionData :=
  let clampedServings := max 0.25 (min 3 newServings)
  let grams := (jsRound (clampedServings * 100) : ℚ)
  { servings := clampedServings, grams := grams }

/-- `updateGrams` (PortionPicker.tsx lines 33-37): clamp the grams to
[10, 1000] and derive servings as `Math.round(grams / 100 * 4) / 4`. -/
def updateGrams (newGrams : ℚ) : PortionData :=
  let clampedGrams := max 10 (min 1000 newGrams)
  let servings := (jsRound (clampedGrams / 100 * 4) : ℚ) / 4
  { servings := servings, grams := clampedGrams }

/-- The `macros` sub-object of a `HistoryEntry`. -/
structure Macros where
  protein : ℚ
  carbs : ℚ
  fat : ℚ

/-- `HistoryEntry` from src/types/index.ts (fields used by the CSV export). -/
structure HistoryEntry where
  id : String
  timestamp : Nat
  label : String
  displayName : String
  grams : ℚ
  servings : ℚ
  kcal : ℤ
  macros : Macros
  thumbDataUrl : String
  confidence : ℚ

/-- The CSV header cells of `exportToCSV` (export.ts). -/
def csvHeaders : List String :=
  ["Date", "Time", "Food", "Portion (g)", "Servings", "Calories",
   "Protein (g)", "Carbs (g)", "Fat (g)", "Confidence"]

/-- One data row of `exportToCSV`.  `dateFn`/`timeFn` model the
locale-dependent `toLocaleDateString`/`toLocaleTimeString` renderings of the
timestamp and `numToString` models JavaScript `Number.prototype.toString`. -/
def csvRow (dateFn timeFn : Nat → String) (numToString : ℚ → String)
    (e : HistoryEntry) : List String :=
  [dateFn e.timestamp,
   timeFn e.timestamp,
   "\"" ++ e.displayName ++ "\"",
   numToString e.grams,
   numToString e.servings,
   toString e.kcal,
   numToString e.macros.protein,
   numToString e.macros.carbs,
   numToString e.macros.fat,
   toString (jsRound (e.confidence * 100)) ++ "%"]

/-- `exportToCSV` (export.ts lines 3-35): header row followed by one row per
entry, cells joined by `,` and lines joined by `\n`. -/
def exportToCSV (dateFn timeFn : Nat → String) (numToString : ℚ → String)
    (entries : List HistoryEntry) : String :=
  String.intercalate "\n"
    (String.intercalate "," csvHeaders ::
      entries.map (fun e => String.intercalate "," (csvRow dateFn timeFn numToString e)))

/-! ### Helper definitions and lemmas -/

/-- Did an `Except`-modelled call throw? -/
def isFailure {α : Type} : Except String α → Bool
  | Except.error _ => true
  | Except.ok _ => false

/-- The list of parsed items carried by a fetch outcome (empty when the call
failed or the body had no array). -/
def outcomeItems {α : Type} : FetchOutcome α → List α
  | FetchOutcome.response _ _ (some l) => l
  | _ => []

theorem jsRound_nonneg {q : ℚ} (h : 0 ≤ q) : 0 ≤ jsRound q := by
  unfold jsRound
  exact Int.le_floor.mpr (by push_cast [Int.cast_zero]; linarith)

theorem jsRound_mono {a b : ℚ} (h : a ≤ b) : jsRound a ≤ jsRound b :=
  Int.floor_le_floor (by linarith)

theorem jsRound_ge {q : ℚ} {z : ℤ} (h : (z : ℚ) ≤ q) : z ≤ jsRound q := by
  unfold jsRound
  exact Int.le_floor.mpr (by linarith)

theorem jsRound_le {q : ℚ} {z : ℤ} (h : q < (z : ℚ) + 1/2) : jsRound q ≤ z := by
  unfold jsRound
  have hlt : ⌊q + 1/2⌋ < z + 1 := Int.floor_lt.mpr (by push_cast; linarith)
  omega

theorem round1_nonneg {q : ℚ} (h : 0 ≤ q) : 0 ≤ round1 q := by
  unfold round1
  apply div_nonneg _ (by norm_num)
  exact_mod_cast jsRound_nonneg (mul_nonneg h (by norm_num))

theorem toNat_ofNat_of_valid {n : Nat} (h : n.isValidChar) : (Char.ofNat n).toNat = n := by
  rw [Char.ofNat, dif_pos h]
  rfl

theorem char_eq_iff_toNat {c d : Char} : c = d ↔ c.toNat = d.toNat := by
  constructor
  · intro h
    rw [h]
  · intro h
    exact Char.ext (UInt32.toNat.inj h)

theorem isWhitespace_eq (c : Char) :
    c.isWhitespace = decide (c.toNat = 32 ∨ c.toNat = 9 ∨ c.toNat = 13 ∨ c.toNat = 10) := by
  have h32 : (' ').toNat = 32 := rfl
  have h9 : ('\t').toNat = 9 := rfl
  have h13 : ('\r').toNat = 13 := rfl
  have h10 : ('\n').toNat = 10 := rfl
  simp only [Char.isWhitespace, char_eq_iff_toNat, h32, h9, h13, h10, Bool.or_eq_true,
    decide_eq_true_eq, ← Bool.decide_or, decide_eq_decide]
  tauto

theorem toLower_hi {c : Char} (h : c.toNat ≥ 65 ∧ c.toNat ≤ 90) :
    c.toLower = Char.ofNat (c.toNat + 32) := by
  unfold Char.toLower
  rw [if_pos h]

theorem toLower_lo {c : Char} (h : ¬(c.toNat ≥ 65 ∧ c.toNat ≤ 90)) : c.toLower = c := by
  unfold Char.toLower
  rw [if_neg h]

theorem toLower_toLower (c : Char) : c.toLower.toLower = c.toLower := by
  by_cases h : c.toNat ≥ 65 ∧ c.toNat ≤ 90
  · have ht : (Char.ofNat (c.toNat + 32)).toNat = c.toNat + 32 :=
      toNat_ofNat_of_valid (Or.inl (by omega))
    rw [toLower_hi h, toLower_lo (by omega)]
  · rw [toLower_lo h, toLower_lo h]

theorem isWhitespace_toLower (c : Char) : c.toLower.isWhitespace = c.isWhitespace := by
  by_cases h : c.toNat ≥ 65 ∧ c.toNat ≤ 90
  · have ht : (Char.ofNat (c.toNat + 32)).toNat = c.toNat + 32 :=
      toNat_ofNat_of_valid (Or.inl (by omega))
    rw [toLower_hi h, isWhitespace_eq, isWhitespace_eq, ht]
    have h1 : ¬(c.toNat + 32 = 32 ∨ c.toNat + 32 = 9 ∨ c.toNat + 32 = 13 ∨ c.toNat + 32 = 10) := by
      omega
    have h2 : ¬(c.toNat = 32 ∨ c.toNat = 9 ∨ c.toNat = 13 ∨ c.toNat = 10) := by omega
    rw [decide_eq_false h1, decide_eq_false h2]
  · rw [toLower_lo h]

theorem map_toLower_idem (s : List Char) :
    (s.map Char.toLower).map Char.toLower = s.map Char.toLower := by
  rw [List.map_map]
  congr 1
  funext c
  exact toLower_toLower c

theorem ws_comp_toLower : (Char.isWhitespace ∘ Char.toLower) = Char.isWhitespace :=
  funext isWhitespace_toLower

theorem dropWhile_ws_map_toLower (s : List Char) :
    (s.map Char.toLower).dropWhile Char.isWhitespace =
      (s.dropWhile Char.isWhitespace).map Char.toLower := by
  rw [List.dropWhile_map, ws_comp_toLower]

theorem rdropWhile_ws_map_toLower (s : List Char) :
    List.rdropWhile Char.isWhitespace (s.map Char.toLower) =
      (List.rdropWhile Char.isWhitespace s).map Char.toLower := by
  unfold List.rdropWhile
  rw [← List.map_reverse, dropWhile_ws_map_toLower, List.map_reverse]

theorem dropWhile_rdropWhile_self {p : Char → Bool} {u : List Char}
    (hu : u.dropWhile p = u) : (List.rdropWhile p u).dropWhile p = List.rdropWhile p u := by
  apply List.dropWhile_eq_self_iff.mpr
  intro hl
  have hpre : List.rdropWhile p u <+: u := List.rdropWhile_prefix p u
  have hlen : 0 < u.length := lt_of_lt_of_le hl hpre.length_le
  have hget : (List.rdropWhile p u).get ⟨0, hl⟩ = u.get ⟨0, hlen⟩ := by
    simp only [List.get_eq_getElem]
    exact hpre.getElem hl
  rw [hget]
  exact List.dropWhile_eq_self_iff.mp hu hlen

theorem jsTrim_eq_rdropWhile (s : JStr) :
    jsTrim s = List.rdropWhile Char.isWhitespace (s.dropWhile Char.isWhitespace) := rfl

theorem jsTrim_idem (s : JStr) : jsTrim (jsTrim s) = jsTrim s := by
  rw [jsTrim_eq_rdropWhile, jsTrim_eq_rdropWhile]
  have h1 : (s.dropWhile Char.isWhitespace).dropWhile Char.isWhitespace
      = s.dropWhile Char.isWhitespace := List.dropWhile_idempotent Char.isWhitespace s
  rw [dropWhile_rdropWhile_self h1, List.rdropWhile_idempotent]

theorem jsTrim_map_toLower (s : JStr) :
    jsTrim (s.map Char.toLower) = (jsTrim s).map Char.toLower := by
  rw [jsTrim_eq_rdropWhile, jsTrim_eq_rdropWhile, dropWhile_ws_map_toLower,
    rdropWhile_ws_map_toLower]

theorem normalizeName_lower_trim (s : JStr) :
    normalizeName (jsToLowerCase (jsTrim s)) = normalizeName s := by
  unfold normalizeName jsToLowerCase
  rw [map_toLower_idem, jsTrim_map_toLower, jsTrim_idem, jsTrim_map_toLower]

theorem normalizeName_eq_nil {s : JStr} (h : ∀ c ∈ s, c.isWhitespace) :
    normalizeName s = [] := by
  have h2 : ∀ c ∈ s.map Char.toLower, c.isWhitespace = true := by
    intro c hc
    rcases List.mem_map.mp hc with ⟨a, ha, rfl⟩
    rw [isWhitespace_toLower]
    exact h a ha
  have h3 : (s.map Char.toLower).dropWhile Char.isWhitespace = [] :=
    List.dropWhile_eq_nil_iff.mpr h2
  unfold normalizeName jsToLowerCase jsTrim
  rw [h3]
  rfl

/-- Case analysis on the fallback chain: the resolved record is a successful
primary result, a successful secondary result, or the local fallback. -/
theorem getNutrition_cases (env : Env) (nix : FetchOutcome NutritionixFood)
    (cn : FetchOutcome CalorieNinjasItem) (name : JStr) :
    (∃ r, getNutritionFromNutritionix env nix = Except.ok r ∧ getNutrition env nix cn name = r)
    ∨ (∃ r, getNutritionFromCalorieNinjas env cn = Except.ok r ∧ getNutrition env nix cn name = r)
    ∨ getNutrition env nix cn name = getNutritionFromLocal name := by
  cases h1 : (truthy env.VITE_NUTRITIONIX_APP_ID && truthy env.VITE_NUTRITIONIX_API_KEY) with
  | true =>
    cases hx : getNutritionFromNutritionix env nix with
    | ok r => exact Or.inl ⟨r, rfl, by simp [getNutrition, h1, hx]⟩
    | error e =>
      cases h2 : truthy env.VITE_CALORIE_NINJAS_KEY with
      | true =>
        cases hy : getNutritionFromCalorieNinjas env cn with
        | ok r2 => exact Or.inr (Or.inl ⟨r2, rfl, by simp [getNutrition, h1, hx, h2, hy]⟩)
        | error e2 => exact Or.inr (Or.inr (by simp [getNutrition, h1, hx, h2, hy]))
      | false => exact Or.inr (Or.inr (by simp [getNutrition, h1, hx, h2]))
  | false =>
    cases h2 : truthy env.VITE_CALORIE_NINJAS_KEY with
    | true =>
      cases hy : getNutritionFromCalorieNinjas env cn with
      | ok r2 => exact Or.inr (Or.inl ⟨r2, rfl, by simp [getNutrition, h1, h2, hy]⟩)
      | error e2 => exact Or.inr (Or.inr (by simp [getNutrition, h1, h2, hy]))
    | false => exact Or.inr (Or.inr (by simp [getNutrition, h1, h2]))

/-- Shape of a successful primary-provider call: the outcome was an ok response
with a non-empty `foods` array, and the record is the normalization of its
first element. -/
theorem nutritionix_ok_fields {env : Env} {nix : FetchOutcome NutritionixFood}
    {r : NutritionData} (h : getNutritionFromNutritionix env nix = Except.ok r) :
    ∃ food rest okf st, nix = FetchOutcome.response okf st (some (food :: rest)) ∧
      r = { kcalPer100g := (jsRound (food.nf_calories / (food.serving_weight_grams / 100)) : ℚ)
            protein := round1 food.nf_protein
            carbs := round1 food.nf_total_carbohydrate
            fat := round1 food.nf_total_fat
            source := Source.nutritionix } := by
  unfold getNutritionFromNutritionix at h
  split at h
  · exact Except.noConfusion h
  · split at h
    · exact Except.noConfusion h
    · split at h
      · exact Except.noConfusion h
      · split at h
        · exact Except.noConfusion h
        · exact Except.noConfusion h
        · injection h with h2
          exact ⟨_, _, _, _, rfl, h2.symm⟩

/-- Shape of a successful secondary-provider call. -/
theorem calorieninjas_ok_fields {env : Env} {cn : FetchOutcome CalorieNinjasItem}
    {r : NutritionData} (h : getNutritionFromCalorieNinjas env cn = Except.ok r) :
    ∃ item rest okf st, cn = FetchOutcome.response okf st (some (item :: rest)) ∧
      r = { kcalPer100g := (jsRound item.calories : ℚ)
            protein := round1 item.protein_g
            carbs := round1 item.carbohydrates_total_g
            fat := round1 item.fat_total_g
            source := Source.calorieninjas } := by
  unfold getNutritionFromCalorieNinjas at h
  split at h
  · exact Except.noConfusion h
  · split at h
    · exact Except.noConfusion h
    · split at h
      · exact Except.noConfusion h
      · split at h
        · exact Except.noConfusion h
        · exact Except.noConfusion h
        · injection h with h2
          exact ⟨_, _, _, _, rfl, h2.symm⟩

/-- Local lookup either returns a table value or the fixed default record. -/
theorem lookupLocal_mem_or_default (n : JStr) :
    (∃ kv ∈ LOCAL_FOOD_DB, lookupLocal n = kv.snd) ∨
      lookupLocal n =
        { kcalPer100g := 200, protein := 10, carbs := 20, fat := 8,
          source := Source.localdb } := by
  unfold lookupLocal
  cases hf : LOCAL_FOOD_DB.find? (fun kv => kv.fst == n) with
  | some kv => exact Or.inl ⟨kv, List.mem_of_find?_eq_some hf, rfl⟩
  | none =>
    cases hg : LOCAL_FOOD_DB.find? (fun kv =>
        strContains n kv.fst || strContains kv.fst n) with
    | some kv => exact Or.inl ⟨kv, List.mem_of_find?_eq_some hg, rfl⟩
    | none => exact Or.inr rfl

/-- Every record the local tier can return has non-negative fields. -/
theorem getNutritionFromLocal_nonneg (name : JStr) :
    0 ≤ (getNutritionFromLocal name).kcalPer100g ∧
      0 ≤ (getNutritionFromLocal name).protein ∧
      0 ≤ (getNutritionFromLocal name).carbs ∧
      0 ≤ (getNutritionFromLocal name).fat := by
  have hdb : ∀ kv ∈ LOCAL_FOOD_DB,
      0 ≤ kv.2.kcalPer100g ∧ 0 ≤ kv.2.protein ∧ 0 ≤ kv.2.carbs ∧ 0 ≤ kv.2.fat := by
    intro kv hkv
    simp only [LOCAL_FOOD_DB, List.mem_cons, List.not_mem_nil, or_false] at hkv
    rcases hkv with rfl | rfl | rfl | rfl | rfl | rfl | rfl | rfl | rfl | rfl <;> norm_num
  unfold getNutritionFromLocal
  rcases lookupLocal_mem_or_default (normalizeName name) with ⟨kv, hmem, heq⟩ | heq
  · rw [heq]
    exact hdb kv hmem
  · rw [heq]
    norm_num

/-! ### The claims -/

/-- C1: for every food name and every outcome of the two remote providers
(success, network error, non-2xx status, empty result set, or missing
credentials), `getNutrition` returns a fully populated record whose source is
nutritionix, calorieninjas, or local, and no exception escapes: whenever both
remote calls fail, resolution advances tier by tier down to the local table. -/
theorem C1_resolver_total_and_caught :
    (∀ (env : Env) (nix : FetchOutcome NutritionixFood) (cn : FetchOutcome CalorieNinjasItem)
        (foodName : JStr),
      (getNutrition env nix cn foodName).source = Source.nutritionix ∨
        (getNutrition env nix cn foodName).source = Source.calorieninjas ∨
        (getNutrition env nix cn foodName).source = Source.localdb) ∧
    (∀ (env : Env) (nix : FetchOutcome NutritionixFood) (cn : FetchOutcome CalorieNinjasItem)
        (foodName : JStr),
      isFailure (getNutritionFromNutritionix env nix) = true →
        isFailure (getNutritionFromCalorieNinjas env cn) = true →
        getNutrition env nix cn foodName = getNutritionFromLocal foodName) := by
  constructor
  · intro env nix cn foodName
    cases h : (getNutrition env nix cn foodName).source <;> simp
  · intro env nix cn foodName h1 h2
    rcases getNutrition_cases env nix cn foodName with ⟨r, hr, he⟩ | ⟨r, hr, he⟩ | he
    · rw [hr] at h1
      exact absurd h1 (by simp [isFailure])
    · rw [hr] at h2
      exact absurd h2 (by simp [isFailure])
    · exact he

/-- C1 witness: with no credentials configured both provider calls fail and
the resolver falls through to the local table. -/
theorem C1_resolver_witness :
    getNutrition
      { VITE_NUTRITIONIX_APP_ID := none, VITE_NUTRITIONIX_API_KEY := none,
        VITE_CALORIE_NINJAS_KEY := none }
      FetchOutcome.networkError FetchOutcome.networkError "pear".data =
      getNutritionFromLocal "pear".data :=
  C1_resolver_total_and_caught.2 _ _ _ _ rfl rfl

/-- C2: when the primary provider is configured and succeeds, the resolver
returns its first food normalized to per-100g, macros rounded to one decimal
place, tagged with the primary source. -/
theorem C2_nutritionix_normalization (env : Env) (st : Nat) (food : NutritionixFood)
    (rest : List NutritionixFood) (cn : FetchOutcome CalorieNinjasItem) (name : JStr)
    (h1 : truthy env.VITE_NUTRITIONIX_APP_ID = true)
    (h2 : truthy env.VITE_NUTRITIONIX_API_KEY = true) :
    getNutrition env (FetchOutcome.response true st (some (food :: rest))) cn name =
      { kcalPer100g := (jsRound (food.nf_calories / (food.serving_weight_grams / 100)) : ℚ)
        protein := round1 food.nf_protein
        carbs := round1 food.nf_total_carbohydrate
        fat := round1 food.nf_total_fat
        source := Source.nutritionix } := by
  simp [getNutrition, getNutritionFromNutritionix, h1, h2]

/-- C2 witness: the spec scenario — 250 kcal for a 200 g serving with macros
20/30/10 — yields kcalPer100g 125 with macros 20/30/10 from Nutritionix. -/
theorem C2_nutritionix_witness :
    getNutrition
      { VITE_NUTRITIONIX_APP_ID := some "id", VITE_NUTRITIONIX_API_KEY := some "key",
        VITE_CALORIE_NINJAS_KEY := none }
      (FetchOutcome.response true 200 (some
        [{ nf_calories := 250, serving_weight_grams := 200, nf_protein := 20,
           nf_total_carbohydrate := 30, nf_total_fat := 10 }]))
      FetchOutcome.networkError "hamburger".data =
      { kcalPer100g := 125, protein := 20, carbs := 30, fat := 10,
        source := Source.nutritionix } := by
  rw [C2_nutritionix_normalization
    { VITE_NUTRITIONIX_APP_ID := some "id", VITE_NUTRITIONIX_API_KEY := some "key",
      VITE_CALORIE_NINJAS_KEY := none }
    200
    { nf_calories := 250, serving_weight_grams := 200, nf_protein := 20,
      nf_total_carbohydrate := 30, nf_total_fat := 10 }
    [] FetchOutcome.networkError "hamburger".data rfl rfl]
  norm_num [jsRound, round1, NutritionData.mk.injEq]

/-- C3 counterexample: editing grams to 1000 (within the grams bounds) produces
servings 10, outside the claimed servings bound [0.25, 3]. -/
theorem C3_portion_counterexample :
    (updateGrams 1000).grams = 1000 ∧ (updateGrams 1000).servings = 10 ∧
      ¬((updateGrams 1000).servings ≤ 3) := by
  norm_num [updateGrams, jsRound]

/-- C3 (amended): a grams edit clamps grams to [10, 1000] and derives servings
as round(grams/100*4)/4, which lies in [0, 10] but is not re-clamped to
[0.25, 3]; a servings edit clamps servings to [0.25, 3] and derives grams as
round(servings*100), which does lie within [10, 1000]. -/
theorem C3_portion_bounds_amended :
    (∀ g : ℚ,
        10 ≤ (updateGrams g).grams ∧ (updateGrams g).grams ≤ 1000 ∧
        (updateGrams g).servings = (jsRound ((updateGrams g).grams / 100 * 4) : ℚ) / 4 ∧
        0 ≤ (updateGrams g).servings ∧ (updateGrams g).servings ≤ 10) ∧
    (∀ s : ℚ,
        1/4 ≤ (updateServings s).servings ∧ (updateServings s).servings ≤ 3 ∧
        (updateServings s).grams = (jsRound ((updateServings s).servings * 100) : ℚ) ∧
        10 ≤ (updateServings s).grams ∧ (updateServings s).grams ≤ 1000) := by
  constructor
  · intro g
    have hc1 : (10 : ℚ) ≤ max 10 (min 1000 g) := le_max_left _ _
    have hc2 : max 10 (min 1000 g) ≤ 1000 := max_le (by norm_num) (min_le_left _ _)
    have hj1 : (0 : ℤ) ≤ jsRound (max 10 (min 1000 g) / 100 * 4) :=
      jsRound_nonneg (by linarith)
    have hj2 : jsRound (max 10 (min 1000 g) / 100 * 4) ≤ 40 :=
      jsRound_le (by push_cast; linarith)
    refine ⟨hc1, hc2, rfl, ?_, ?_⟩
    · show (0 : ℚ) ≤ (jsRound (max 10 (min 1000 g) / 100 * 4) : ℚ) / 4
      have hcast : (0 : ℚ) ≤ (jsRound (max 10 (min 1000 g) / 100 * 4) : ℚ) := by
        exact_mod_cast hj1
      linarith
    · show (jsRound (max 10 (min 1000 g) / 100 * 4) : ℚ) / 4 ≤ 10
      have hcast : (jsRound (max 10 (min 1000 g) / 100 * 4) : ℚ) ≤ 40 := by
        exact_mod_cast hj2
      linarith
  · intro s
    have hc1 : (0.25 : ℚ) ≤ max 0.25 (min 3 s) := le_max_left _ _
    have hc2 : max 0.25 (min 3 s) ≤ 3 := max_le (by norm_num) (min_le_left _ _)
    have hj1 : (25 : ℤ) ≤ jsRound (max 0.25 (min 3 s) * 100) :=
      jsRound_ge (by push_cast; nlinarith)
    have hj2 : jsRound (max 0.25 (min 3 s) * 100) ≤ 300 :=
      jsRound_le (by push_cast; nlinarith)
    refine ⟨?_, hc2, rfl, ?_, ?_⟩
    · show (1/4 : ℚ) ≤ max 0.25 (min 3 s)
      linarith [hc1]
    · show (10 : ℚ) ≤ (jsRound (max 0.25 (min 3 s) * 100) : ℚ)
      have hcast : (25 : ℚ) ≤ (jsRound (max 0.25 (min 3 s) * 100) : ℚ) := by
        exact_mod_cast hj1
      linarith
    · show (jsRound (max 0.25 (min 3 s) * 100) : ℚ) ≤ 1000
      have hcast : (jsRound (max 0.25 (min 3 s) * 100) : ℚ) ≤ 300 := by
        exact_mod_cast hj2
      linarith

/-- C4: `calculateCalories` is `round(kcalPer100g * grams / 100)` with half-up
rounding for every record and every grams value, and in particular 133 kcal at
150 g gives 199.5, which rounds up to 200. -/
theorem C4_calories_halfup :
    (∀ (nd : NutritionData) (grams : ℚ),
        calculateCalories nd grams = ⌊nd.kcalPer100g * grams / 100 + 1/2⌋) ∧
      calculateCalories
        { kcalPer100g := 133, protein := 0, carbs := 0, fat := 0, source := Source.localdb }
        150 = 200 :=
  ⟨fun _ _ => rfl, by norm_num [calculateCalories, jsRound]⟩

/-- C5 counterexample: a primary-provider response carrying negative numbers
flows unvalidated into the record, so the resolved protein is negative; the
claim fails for that provider response. -/
theorem C5_nonneg_counterexample :
    ¬(0 ≤ (getNutrition
      { VITE_NUTRITIONIX_APP_ID := some "id", VITE_NUTRITIONIX_API_KEY := some "key",
        VITE_CALORIE_NINJAS_KEY := none }
      (FetchOutcome.response true 200 (some
        [{ nf_calories := -50, serving_weight_grams := 100, nf_protein := -1,
           nf_total_carbohydrate := -1, nf_total_fat := -1 }]))
      FetchOutcome.networkError "apple".data).protein) := by
  have h : (getNutrition
      { VITE_NUTRITIONIX_APP_ID := some "id", VITE_NUTRITIONIX_API_KEY := some "key",
        VITE_CALORIE_NINJAS_KEY := none }
      (FetchOutcome.response true 200 (some
        [{ nf_calories := -50, serving_weight_grams := 100, nf_protein := -1,
           nf_total_carbohydrate := -1, nf_total_fat := -1 }]))
      FetchOutcome.networkError "apple".data).protein = round1 (-1) := rfl
  rw [h]
  norm_num [round1, jsRound]

/-- C5 (amended): every resolved record is fully populated, and all four
numeric fields are non-negative provided every numeric field of the provider
responses is non-negative; the local tier is unconditionally non-negative. -/
theorem C5_nonneg_amended (env : Env) (nix : FetchOutcome NutritionixFood)
    (cn : FetchOutcome CalorieNinjasItem) (name : JStr)
    (hnix : ∀ f ∈ outcomeItems nix, 0 ≤ f.nf_calories ∧ 0 ≤ f.serving_weight_grams ∧
      0 ≤ f.nf_protein ∧ 0 ≤ f.nf_total_carbohydrate ∧ 0 ≤ f.nf_total_fat)
    (hcn : ∀ it ∈ outcomeItems cn, 0 ≤ it.calories ∧ 0 ≤ it.protein_g ∧
      0 ≤ it.carbohydrates_total_g ∧ 0 ≤ it.fat_total_g) :
    0 ≤ (getNutrition env nix cn name).kcalPer100g ∧
      0 ≤ (getNutrition env nix cn name).protein ∧
      0 ≤ (getNutrition env nix cn name).carbs ∧
      0 ≤ (getNutrition env nix cn name).fat := by
  rcases getNutrition_cases env nix cn name with ⟨r, hr, he⟩ | ⟨r, hr, he⟩ | he
  · rcases nutritionix_ok_fields hr with ⟨food, rest, okf, st, hshape, hrec⟩
    have hf := hnix food (by rw [hshape]; simp [outcomeItems])
    rw [he, hrec]
    refine ⟨?_, ?_, ?_, ?_⟩
    · show (0 : ℚ) ≤ (jsRound (food.nf_calories / (food.serving_weight_grams / 100)) : ℚ)
      exact_mod_cast jsRound_nonneg (div_nonneg hf.1 (div_nonneg hf.2.1 (by norm_num)))
    · exact round1_nonneg hf.2.2.1
    · exact round1_nonneg hf.2.2.2.1
    · exact round1_nonneg hf.2.2.2.2
  · rcases calorieninjas_ok_fields hr with ⟨item, rest, okf, st, hshape, hrec⟩
    have hf := hcn item (by rw [hshape]; simp [outcomeItems])
    rw [he, hrec]
    refine ⟨?_, ?_, ?_, ?_⟩
    · show (0 : ℚ) ≤ (jsRound item.calories : ℚ)
      exact_mod_cast jsRound_nonneg hf.1
    · exact round1_nonneg hf.2.1
    · exact round1_nonneg hf.2.2.1
    · exact round1_nonneg hf.2.2.2
  · rw [he]
    exact getNutritionFromLocal_nonneg name

/-- C5 witness: with no credentials and failed fetches the resolver yields a
record with non-negative protein. -/
theorem C5_nonneg_witness :
    0 ≤ (getNutrition
      { VITE_NUTRITIONIX_APP_ID := none, VITE_NUTRITIONIX_API_KEY := none,
        VITE_CALORIE_NINJAS_KEY := none }
      FetchOutcome.networkError FetchOutcome.networkError "apple".data).protein :=
  (C5_nonneg_amended _ _ _ _ (by simp [outcomeItems]) (by simp [outcomeItems])).2.1

/-- C7: when no remote credentials are configured and the normalized food name
matches no local-table key exactly nor by substring containment in either
direction, the resolver returns exactly the fixed default record. -/
theorem C7_default_record (env : Env) (nix : FetchOutcome NutritionixFood)
    (cn : FetchOutcome CalorieNinjasItem) (name : JStr)
    (h1 : (truthy env.VITE_NUTRITIONIX_APP_ID && truthy env.VITE_NUTRITIONIX_API_KEY) = false)
    (h2 : truthy env.VITE_CALORIE_NINJAS_KEY = false)
    (h3 : LOCAL_FOOD_DB.find? (fun kv => kv.fst == normalizeName name) = none)
    (h4 : LOCAL_FOOD_DB.find? (fun kv =>
        strContains (normalizeName name) kv.fst ||
          strContains kv.fst (normalizeName name)) = none) :
    getNutrition env nix cn name =
      { kcalPer100g := 200, protein := 10, carbs := 20, fat := 8,
        source := Source.localdb } := by
  simp [getNutrition, h1, h2, getNutritionFromLocal, lookupLocal, h3, h4]

/-- C7 witness: "xyzzy" matches nothing in the table, so with no credentials
the resolver returns the default record. -/
theorem C7_default_record_witness :
    getNutrition
      { VITE_NUTRITIONIX_APP_ID := none, VITE_NUTRITIONIX_API_KEY := none,
        VITE_CALORIE_NINJAS_KEY := none }
      FetchOutcome.networkError FetchOutcome.networkError "xyzzy".data =
      { kcalPer100g := 200, protein := 10, carbs := 20, fat := 8,
        source := Source.localdb } :=
  C7_default_record
    { VITE_NUTRITIONIX_APP_ID := none, VITE_NUTRITIONIX_API_KEY := none,
      VITE_CALORIE_NINJAS_KEY := none }
    FetchOutcome.networkError FetchOutcome.networkError "xyzzy".data rfl rfl rfl rfl

/-- C8: for a fixed record with non-negative density, calories are non-negative
and monotonically non-decreasing in grams over [10, 1000]. -/
theorem C8_calories_monotone (nd : NutritionData) (g1 g2 : ℚ) (hk : 0 ≤ nd.kcalPer100g)
    (h1 : 10 ≤ g1) (h2 : g1 ≤ g2) (h3 : g2 ≤ 1000) :
    0 ≤ calculateCalories nd g1 ∧ calculateCalories nd g1 ≤ calculateCalories nd g2 := by
  constructor
  · exact jsRound_nonneg (div_nonneg (mul_nonneg hk (by linarith)) (by norm_num))
  · apply jsRound_mono
    have hmul : nd.kcalPer100g * g1 ≤ nd.kcalPer100g * g2 := mul_le_mul_of_nonneg_left h2 hk
    linarith [hmul, h3]

/-- C8 witness: the 133 kcal record at 150 g versus 300 g. -/
theorem C8_calories_monotone_witness :
    0 ≤ calculateCalories
        { kcalPer100g := 133, protein := 0, carbs := 0, fat := 0, source := Source.localdb }
        150 ∧
      calculateCalories
        { kcalPer100g := 133, protein := 0, carbs := 0, fat := 0, source := Source.localdb }
        150 ≤
        calculateCalories
          { kcalPer100g := 133, protein := 0, carbs := 0, fat := 0, source := Source.localdb }
          300 :=
  C8_calories_monotone _ 150 300 (by norm_num) (by norm_num) (by norm_num) (by norm_num)

/-- C9: exporting an empty history yields exactly the header line with no
trailing newline; every data row quotes the food name in its third cell and
renders confidence as a rounded integer percentage in its tenth cell; the CSV
is the header row followed by one row per entry. -/
theorem C9_export_csv_shape :
    (∀ (dateFn timeFn : Nat → String) (numToString : ℚ → String),
        exportToCSV dateFn timeFn numToString [] =
          "Date,Time,Food,Portion (g),Servings,Calories,Protein (g),Carbs (g),Fat (g),Confidence") ∧
    (∀ (dateFn timeFn : Nat → String) (numToString : ℚ → String) (e : HistoryEntry),
        (csvRow dateFn timeFn numToString e)[2]? = some ("\"" ++ e.displayName ++ "\"") ∧
        (csvRow dateFn timeFn numToString e)[9]? =
          some (toString (jsRound (e.confidence * 100)) ++ "%")) ∧
    (∀ (dateFn timeFn : Nat → String) (numToString : ℚ → String)
        (entries : List HistoryEntry),
        exportToCSV dateFn timeFn numToString entries =
          String.intercalate "\n" (String.intercalate "," csvHeaders ::
            entries.map (fun e => String.intercalate "," (csvRow dateFn timeFn numToString e)))) :=
  ⟨fun _ _ _ => rfl, fun _ _ _ _ => ⟨rfl, rfl⟩, fun _ _ _ _ => rfl⟩

/-- C6: local-table lookup is case-insensitive and whitespace-trimmed — for
every string, resolving it locally equals resolving its trimmed lowercase
form, and " Apple " resolves identically to "apple"; lookup tries an exact key
match first and otherwise returns the first entry, in table iteration order,
related by substring containment in either direction. -/
theorem C6_local_lookup_normalized :
    (∀ s : JStr, getNutritionFromLocal (jsToLowerCase (jsTrim s)) = getNutritionFromLocal s) ∧
    getNutritionFromLocal " Apple ".data = getNutritionFromLocal "apple".data ∧
    (∀ (n : JStr) (kv : JStr × NutritionData),
        LOCAL_FOOD_DB.find? (fun kv => kv.fst == n) = some kv →
        lookupLocal n = kv.snd) ∧
    (∀ (n : JStr) (kv : JStr × NutritionData),
        LOCAL_FOOD_DB.find? (fun kv => kv.fst == n) = none →
        LOCAL_FOOD_DB.find? (fun kv =>
          strContains n kv.fst || strContains kv.fst n) = some kv →
        lookupLocal n = kv.snd) := by
  refine ⟨?_, rfl, ?_, ?_⟩
  · intro s
    unfold getNutritionFromLocal
    rw [normalizeName_lower_trim]
  · intro n kv h
    unfold lookupLocal
    rw [h]
  · intro n kv h1 h2
    unfold lookupLocal
    rw [h1, h2]

/-- C6 witness: "chicken" matches no key exactly but is contained in the
fourth key "chicken breast", whose record is returned. -/
theorem C6_local_lookup_witness :
    lookupLocal "chicken".data =
      { kcalPer100g := 165, protein := 31, carbs := 0, fat := 3.6,
        source := Source.localdb } :=
  C6_local_lookup_normalized.2.2.2 "chicken".data
    ("chicken breast".data,
      { kcalPer100g := 165, protein := 31, carbs := 0, fat := 3.6,
        source := Source.localdb })
    rfl rfl

/-- C10: with no remote credentials configured, the empty food name and every
whitespace-only food name resolve to the first local-table entry — the apple
record — because every table key contains the empty normalized query as a
substring, rather than to the fixed default record. -/
theorem C10_empty_query_first_entry (env : Env) (nix : FetchOutcome NutritionixFood)
    (cn : FetchOutcome CalorieNinjasItem) (s : JStr)
    (h1 : (truthy env.VITE_NUTRITIONIX_APP_ID && truthy env.VITE_NUTRITIONIX_API_KEY) = false)
    (h2 : truthy env.VITE_CALORIE_NINJAS_KEY = false)
    (hws : ∀ c ∈ s, c.isWhitespace) :
    getNutrition env nix cn s =
      { kcalPer100g := 52, protein := 0.3, carbs := 14, fat := 0.2,
        source := Source.localdb } := by
  have hloc : getNutritionFromLocal s =
      { kcalPer100g := 52, protein := 0.3, carbs := 14, fat := 0.2,
        source := Source.localdb } := by
    unfold getNutritionFromLocal
    rw [normalizeName_eq_nil hws]
    rfl
  simp [getNutrition, h1, h2, hloc]

/-- C10 witness: a food name of two spaces resolves to the apple record. -/
theorem C10_empty_query_witness :
    getNutrition
      { VITE_NUTRITIONIX_APP_ID := none, VITE_NUTRITIONIX_API_KEY := none,
        VITE_CALORIE_NINJAS_KEY := none }
      FetchOutcome.networkError FetchOutcome.networkError "  ".data =
      { kcalPer100g := 52, protein := 0.3, carbs := 14, fat := 0.2,
        source := Source.localdb } :=
  C10_empty_query_first_entry _ _ _ _ rfl rfl (by decide)

end CalorieSnap
